import Mathlib

/-!
Shallow embedding of the Settlement Payment Extractor relay (`server.js`):
the JavaScript value model, the request validator, the upstream request
builder and the `/extract` endpoint handler, with the endpoint's interaction
with the upstream service represented by an explicit outcome parameter.
-/

namespace SLH

/-- A JavaScript value as the relay manipulates it. Numbers are modelled as
integers: every number the relay itself produces or inspects (string lengths,
HTTP status codes, `max_tokens`) is an integer in the safe range; the one
fractional computation (`length * 0.75` in the size check) is carried out in
`ℚ` by `estimatedSizeOf`, and `NaN` is represented by `Option` at the point it
can arise (`toNumber`). Object field lists are taken duplicate-free, as JS
object literals produce. -/
inductive JSValue : Type where
  | undefined : JSValue
  | null : JSValue
  | bool : Bool → JSValue
  | num : Int → JSValue
  | str : String → JSValue
  | arr : List JSValue → JSValue
  | obj : List (String × JSValue) → JSValue

/-- JavaScript truthiness: `undefined`, `null`, `false`, `0` and `""` are
falsy; every array and object is truthy. -/
def truthy : JSValue → Bool
  | .undefined => false
  | .null => false
  | .bool b => b
  | .num n => n != 0
  | .str s => s != ""
  | .arr _ => true
  | .obj _ => true

/-- Property access `v.k` / `v?.k`. On an object: field lookup. On a string
or an array the only property the code reads is `length`. On every other
value, and for a missing field, the result is `undefined`. (In JS a bare
access on `null`/`undefined` throws; `server.js` only dereferences values it
has guarded by truthiness or `?.`, so both access forms coincide in result
and are embedded by this one total function.) -/
def getField (v : JSValue) (k : String) : JSValue :=
  match v with
  | .obj fs => (fs.lookup k).getD .undefined
  | .str s => if k == "length" then .num (s.length : Int) else .undefined
  | .arr xs => if k == "length" then .num (xs.length : Int) else .undefined
  | _ => .undefined

/-- Index access `v?.[i]`: array element, single-character string, or the
numeric-keyed field of an object; `undefined` otherwise or out of range. -/
def getIndex (v : JSValue) (i : Nat) : JSValue :=
  match v with
  | .arr xs => xs.getD i .undefined
  | .str s =>
      match s.toList[i]? with
      | some c => .str (String.singleton c)
      | none => .undefined
  | .obj fs => (fs.lookup (toString i)).getD .undefined
  | _ => .undefined

/-- JavaScript `a || b`: `a` when truthy, else `b`. -/
def jsOr (a b : JSValue) : JSValue := if truthy a then a else b

/-- `list.includes(v)` for a list of string literals: true exactly when `v`
is a string strictly equal to one of them. -/
def strIncludes (l : List String) (v : JSValue) : Bool :=
  match v with
  | .str s => l.contains s
  | _ => false

/-- `v === lit` for a string literal `lit`. -/
def strEq (v : JSValue) (lit : String) : Bool :=
  match v with
  | .str s => s == lit
  | _ => false

/-- ECMAScript ToNumber restricted to the shapes reachable in the size check
(`(content.source?.data?.length || 0) * 0.75`). `none` is NaN. String
numerals are modelled for nonnegative decimal integers (the only numeric
strings a `length` chain can yield); arrays and objects are approximated as
NaN, the value ToNumber gives every non-numeric object reachable here. -/
def toNumber : JSValue → Option ℚ
  | .undefined => none
  | .null => some 0
  | .bool b => some (if b then 1 else 0)
  | .num n => some (n : ℚ)
  | .str s => if s == "" then some 0 else (s.toNat?).map (fun n => (n : ℚ))
  | .arr _ => none
  | .obj _ => none

/-- `x > bound` where `x` may be NaN (`none`): every comparison with NaN is
false, as in JS. -/
def optGt (x : Option ℚ) (bound : ℚ) : Bool :=
  match x with
  | some q => decide (bound < q)
  | none => false

/-- `String(v)` as applied by the `Error` constructor to its message
argument, restricted to the values reachable there; an array is approximated
by the empty string (`Array.prototype.toString` is not exercised by the
code on any value the relay itself builds). -/
def jsToString : JSValue → String
  | .str s => s
  | .num n => toString n
  | .bool b => if b then "true" else "false"
  | .null => "null"
  | .undefined => "undefined"
  | .arr _ => ""
  | .obj _ => "[object Object]"

/-- `CONFIG.maxFileSize` (server.js line 13): 50 MB. -/
def CONFIG_maxFileSize : Nat := 50 * 1024 * 1024

/-- `CONFIG.apiTimeout` (server.js line 14): 28 seconds in milliseconds. -/
def CONFIG_apiTimeout : Nat := 28000

/-- `CONFIG.model` (server.js line 15). -/
def CONFIG_model : String := "claude-sonnet-4-20250514"

/-- `CONFIG.maxTokens` (server.js line 16). -/
def CONFIG_maxTokens : Nat := 4096

/-- `validMediaTypes` (server.js lines 97–104). -/
def validMediaTypes : List String :=
  ["application/pdf", "image/jpeg", "image/jpg", "image/png", "image/gif", "image/webp"]

/-- `body?.messages?.[0]?.content?.[0]`: the document/image content block of
a request body (server.js lines 78 and 83). -/
def contentBlock (body : JSValue) : JSValue :=
  getIndex (getField (getIndex (getField body "messages") 0) "content") 0

/-- The media-type validation message:
`Invalid media type. Allowed: ${validMediaTypes.join(', ')}` (line 107). -/
def mediaTypeErrorMsg : String :=
  "Invalid media type. Allowed: " ++ String.intercalate ", " validMediaTypes

/-- `(content.source?.data?.length || 0) * 0.75` (server.js line 111), the
estimated decoded size, in ℚ; `none` is NaN. -/
def estimatedSizeOf (content : JSValue) : Option ℚ :=
  (toNumber (jsOr (getField (getField (getField content "source") "data") "length") (.num 0))).map
    (fun q => q * 0.75)

/-- Check (b), `content.type` (server.js lines 85–87), as the list of error
messages it pushes. -/
def contentTypeErrors (content : JSValue) : List String :=
  if !(truthy (getField content "type"))
      || !(strIncludes ["image", "document"] (getField content "type")) then
    ["Invalid content type. Must be \"image\" or \"document\""]
  else []

/-- Check (c), `content.source?.type` (server.js lines 89–91). -/
def sourceTypeErrors (content : JSValue) : List String :=
  if !(truthy (getField (getField content "source") "type"))
      || !(strEq (getField (getField content "source") "type") "base64") then
    ["Invalid source type. Must be \"base64\""]
  else []

/-- Check (d), `content.source?.data` (server.js lines 93–95). -/
def dataErrors (content : JSValue) : List String :=
  if !(truthy (getField (getField content "source") "data")) then
    ["Missing base64 data"]
  else []

/-- Check (e), `content.source?.media_type` (server.js lines 106–108). -/
def mediaTypeErrors (content : JSValue) : List String :=
  if !(strIncludes validMediaTypes (getField (getField content "source") "media_type")) then
    [mediaTypeErrorMsg]
  else []

/-- Check (f), the size estimate (server.js lines 110–114); the message
interpolates `CONFIG.maxFileSize / (1024 * 1024)`, i.e. 50. -/
def sizeErrors (content : JSValue) : List String :=
  if optGt (estimatedSizeOf content) (CONFIG_maxFileSize : ℚ) then
    ["File too large. Maximum size: 50MB"]
  else []

/-- The record `{ valid, errors }` returned by the validator. -/
structure ValidationResult where
  valid : Bool
  errors : List String

/-- `validateRequest` (server.js lines 75–117). The initial missing-content
guard returns at once with the single error; afterwards each
`if (...) errors.push(msg)` clause contributes its message in source order,
and `valid` is `errors.length === 0`. -/
def validateRequest (body : JSValue) : ValidationResult :=
  if !(truthy (contentBlock body)) then
    { valid := false, errors := ["Missing document content"] }
  else
    let content := contentBlock body
    let errors :=
      contentTypeErrors content ++ sourceTypeErrors content ++ dataErrors content
        ++ mediaTypeErrors content ++ sizeErrors content
    { valid := errors.isEmpty, errors := errors }

/-- `buildExtractionPrompt` (server.js lines 120–211): the fixed extraction
instruction template (a template literal with no interpolation). -/
def buildExtractionPrompt : String :=
  "Extract debt settlement payment details from this document. Return ONLY valid JSON with no markdown formatting or code blocks.

REQUIRED JSON STRUCTURE:
\x7b
  \"paymentBreakdown\": \x7b
    \"data\": \"Payment schedule with amounts and dates\",
    \"confidence\": \"high|medium|low\",
    \"source\": \"Exact quote from document\",
    \"notes\": \"Any clarifications\",
    \"location\": \"Where found in document\"
  \x7d,
  \"firstPaymentDate\": \x7b
    \"data\": \"First payment due date\",
    \"confidence\": \"high|medium|low\",
    \"source\": \"Exact quote\",
    \"notes\": \"Any clarifications\",
    \"location\": \"Location description\"
  \x7d,
  \"currentBalance\": \x7b
    \"data\": \"Total settlement amount\",
    \"confidence\": \"high|medium|low\",
    \"source\": \"Exact quote\",
    \"notes\": \"Any clarifications\",
    \"location\": \"Location description\"
  \x7d,
  \"fees\": \x7b
    \"data\": \"List all fees or 'None'\",
    \"confidence\": \"high|medium|low\",
    \"source\": \"Exact quote\",
    \"notes\": \"Any clarifications\",
    \"location\": \"Location description\"
  \x7d,
  \"signatureRequired\": \x7b
    \"data\": \"YES or NO\",
    \"confidence\": \"high|medium|low\",
    \"source\": \"Exact quote or explanation\",
    \"notes\": \"Any clarifications\",
    \"location\": \"Location description\"
  \x7d,
  \"remittanceTo\": \x7b
    \"data\": \"Entity name that receives payment\",
    \"confidence\": \"high|medium|low\",
    \"source\": \"Exact quote\",
    \"notes\": \"Default to letterhead if not stated\",
    \"location\": \"Location description\"
  \x7d,
  \"mailingAddress\": \x7b
    \"data\": \"Complete mailing address for payment\",
    \"confidence\": \"high|medium|low\",
    \"source\": \"Exact quote\",
    \"notes\": \"Default to letterhead if not stated\",
    \"location\": \"Location description\"
  \x7d,
  \"checkPayableTo\": \x7b
    \"data\": \"Name for check payable\",
    \"confidence\": \"high|medium|low\",
    \"source\": \"Exact quote\",
    \"notes\": \"Only if explicitly stated\",
    \"location\": \"Location description\"
  \x7d,
  \"clientName\": \x7b
    \"data\": \"Client/debtor name\",
    \"confidence\": \"high|medium|low\",
    \"source\": \"Exact quote\",
    \"notes\": \"Any clarifications\",
    \"location\": \"Location description\"
  \x7d,
  \"referenceNumber\": \x7b
    \"data\": \"Account/reference number\",
    \"confidence\": \"high|medium|low\",
    \"source\": \"Exact quote\",
    \"notes\": \"Any clarifications\",
    \"location\": \"Location description\"
  \x7d,
  \"additionalInstructions\": \x7b
    \"data\": \"Any special payment instructions\",
    \"confidence\": \"high|medium|low\",
    \"source\": \"Exact quote\",
    \"notes\": \"Include special requirements\",
    \"location\": \"Location description\"
  \x7d
\x7d

EXTRACTION RULES:
1. If information not found, use \"NOT FOUND\" as data value
2. Confidence levels:
   - high: Clearly stated and unambiguous
   - medium: Implied or requires interpretation  
   - low: Unclear or possibly incorrect
3. Source must be exact text from document
4. Location describes where in document (e.g., \"top of page 1\", \"payment terms section\")
5. Return ONLY the JSON object - no markdown, no explanations, no code blocks"

/-- The request `fetch` is given (server.js lines 250–279): URL, method,
headers and the JSON body (before serialization). -/
structure UpstreamRequest where
  url : String
  method : String
  headers : List (String × String)
  body : JSValue

/-- The body sent to the upstream endpoint (server.js lines 257–277): the
fixed model and token budget, and a single user message whose content is the
document block rebuilt from the inbound request followed by the prompt text
block. -/
def buildUpstreamRequest (apiKey : String) (content : JSValue) : UpstreamRequest :=
  { url := "https://api.anthropic.com/v1/messages"
    method := "POST"
    headers :=
      [("Content-Type", "application/json"),
       ("x-api-key", apiKey),
       ("anthropic-version", "2023-06-01")]
    body := .obj
      [("model", .str CONFIG_model),
       ("max_tokens", .num (CONFIG_maxTokens : Int)),
       ("messages", .arr
         [.obj
           [("role", .str "user"),
            ("content", .arr
              [.obj
                [("type", getField content "type"),
                 ("source", .obj
                   [("type", .str "base64"),
                    ("media_type", getField (getField content "source") "media_type"),
                    ("data", getField (getField content "source") "data")])],
               .obj [("type", .str "text"), ("text", .str buildExtractionPrompt)]])]])] }

/-- `response.ok` of the Fetch API: status in [200, 300). -/
def responseOk (st : Nat) : Bool := decide (200 ≤ st) && decide (st < 300)

/-- What `response.json()` yields on the upstream response: a parsed JSON
value, or the message of the exception the parse raises. -/
inductive UpstreamBody : Type where
  | json : JSValue → UpstreamBody
  | unparsable : String → UpstreamBody

/-- How the bounded upstream call settles: an HTTP response, cancellation by
the deadline timer (`AbortError` from `controller.abort()`), or a
network-level `fetch` rejection carrying that error's message. -/
inductive UpstreamOutcome : Type where
  | response : Nat → UpstreamBody → UpstreamOutcome
  | aborted : UpstreamOutcome
  | failed : String → UpstreamOutcome

/-- `await response.json().catch(() => ({}))` on a non-success response
(server.js line 284): the parsed error body, or `{}` when parsing fails. -/
def upstreamErrorData : UpstreamBody → JSValue
  | .json v => v
  | .unparsable _ => .obj []

/-- `errorData.error?.message || `API Error: ${response.status}`` (server.js
line 290). -/
def upstreamErrorMessage (st : Nat) (ub : UpstreamBody) : JSValue :=
  jsOr (getField (getField (upstreamErrorData ub) "error") "message")
    (.str ("API Error: " ++ toString st))

/-- `error.message || 'Failed to process document'` (server.js line 344). -/
def errMessageOrDefault (m : String) : String :=
  if m == "" then "Failed to process document" else m

/-- A caller-facing response: status code and JSON body. -/
structure RelayResponse where
  status : Nat
  body : JSValue

/-- What one handler run did: the upstream calls it issued (in order) and the
response it sent. -/
structure RelayResult where
  calls : List UpstreamRequest
  response : RelayResponse

/-- `{ error, requestId }` — the common error envelope. -/
def errJson (msg requestId : String) : JSValue :=
  .obj [("error", .str msg), ("requestId", .str requestId)]

/-- How the settled upstream call is mapped to the caller-facing response
(server.js lines 283–347). The `throw new Error(errorMessage)` of line 315
lands in the catch block of lines 326–347 with `error.name` not
`AbortError`; its effect (`String` coercion of the message, then the 500
envelope) is inlined at the throw site, as is the rejection path of
`response.json()` on a success status. -/
def relayRespond (outcome : UpstreamOutcome) (requestId : String) : RelayResponse :=
  match outcome with
  | .response st ub =>
      if responseOk st then
        match ub with
        | .json v => { status := 200, body := v }
        | .unparsable m =>
            { status := 500, body := errJson (errMessageOrDefault m) requestId }
      else
        if st = 401 then
          { status := 500
            body := errJson
              "Invalid API key. Please check your ANTHROPIC_API_KEY configuration."
              requestId }
        else if st = 429 then
          { status := 429
            body := errJson
              "Rate limit exceeded. Please wait a moment and try again." requestId }
        else if st = 400 then
          { status := 400
            body := .obj
              [("error", .str
                "Invalid document format. Please ensure the file is a valid PDF or image."),
               ("details", upstreamErrorMessage st ub),
               ("requestId", .str requestId)] }
        else
          { status := 500
            body := errJson
              (errMessageOrDefault (jsToString (upstreamErrorMessage st ub))) requestId }
  | .aborted =>
      { status := 504
        body := .obj
          [("error", .str "Processing timeout. The document took too long to analyze."),
           ("suggestion", .str
             "Try uploading a screenshot (PNG/JPG) instead of a PDF, or use a smaller file."),
           ("requestId", .str requestId)] }
  | .failed m =>
      { status := 500, body := errJson (errMessageOrDefault m) requestId }

/-- The `/extract` handler (server.js lines 214–348) as a pure function of
the credential, the inbound body, how the single bounded upstream call would
settle, and the request's correlation identifier. The source tests
`!validation.valid` and returns early; here the branches are written
positively, and the try block's outcome handling is `relayRespond`. -/
def relayExtract (apiKey : Option String) (reqBody : JSValue)
    (outcome : UpstreamOutcome) (requestId : String) : RelayResult :=
  match apiKey with
  | none =>
      { calls := []
        response :=
          { status := 500
            body := errJson
              "API Key is not configured. Please set ANTHROPIC_API_KEY in environment variables."
              requestId } }
  | some key =>
      let validation := validateRequest reqBody
      if validation.valid then
        let content := contentBlock reqBody
        { calls := [buildUpstreamRequest key content]
          response := relayRespond outcome requestId }
      else
        { calls := []
          response :=
            { status := 400
              body := .obj
                [("error", .str "Invalid request"),
                 ("details", .arr (validation.errors.map JSValue.str)),
                 ("requestId", .str requestId)] } }

/-- The response body with its top-level `requestId` field removed: what "the
response modulo the correlation identifier" means below. -/
def stripRequestId : JSValue → JSValue
  | .obj fs => .obj (fs.filter (fun f => f.1 != "requestId"))
  | v => v

lemma validateRequest_valid_eq (body : JSValue) :
    (validateRequest body).valid = (validateRequest body).errors.isEmpty := by
  unfold validateRequest
  split <;> simp

lemma relayExtract_of_valid (k : String) (body : JSValue) (out : UpstreamOutcome)
    (rid : String) (hv : (validateRequest body).valid = true) :
    relayExtract (some k) body out rid =
      { calls := [buildUpstreamRequest k (contentBlock body)]
        response := relayRespond out rid } := by
  simp [relayExtract, hv]

lemma relayExtract_of_invalid (k : String) (body : JSValue) (out : UpstreamOutcome)
    (rid : String) (hv : (validateRequest body).valid = false) :
    relayExtract (some k) body out rid =
      { calls := []
        response :=
          { status := 400
            body := .obj
              [("error", .str "Invalid request"),
               ("details", .arr ((validateRequest body).errors.map JSValue.str)),
               ("requestId", .str rid)] } } := by
  simp [relayExtract, hv]

/-- A well-formed request body: a PNG image with an 8-character base64
payload. -/
def sampleBody : JSValue :=
  .obj [("messages", .arr [.obj
    [("role", .str "user"),
     ("content", .arr [.obj
       [("type", .str "image"),
        ("source", .obj
          [("type", .str "base64"),
           ("media_type", .str "image/png"),
           ("data", .str "aGVsbG8=")])]])]])]

/-- `sampleBody` with `media_type` replaced by `application/zip`. -/
def zipBody : JSValue :=
  .obj [("messages", .arr [.obj
    [("role", .str "user"),
     ("content", .arr [.obj
       [("type", .str "image"),
        ("source", .obj
          [("type", .str "base64"),
           ("media_type", .str "application/zip"),
           ("data", .str "aGVsbG8=")])]])]])]

/-- A request body whose content block is present but fails the type, source,
data and media-type checks at once. -/
def multiFailBody : JSValue :=
  .obj [("messages", .arr [.obj
    [("content", .arr [.obj
       [("type", .str "video"),
        ("source", .obj
          [("type", .str "hex"),
           ("media_type", .str "application/zip")])]])]])]

/-- Whether `needle` occurs as a contiguous substring of `hay`. -/
def mentions (needle hay : String) : Bool :=
  (List.range (hay.length + 1)).any
    (fun i => needle.toList.isPrefixOf (hay.toList.drop i))

lemma estimatedSizeOf_str (content : JSValue) (s : String)
    (hd : getField (getField content "source") "data" = JSValue.str s) :
    estimatedSizeOf content = some ((s.length : ℚ) * 0.75) := by
  unfold estimatedSizeOf
  rw [hd]
  by_cases h0 : s.length = 0
  · simp [getField, jsOr, truthy, toNumber, h0]
  · simp [getField, jsOr, truthy, toNumber, h0]

lemma optGt_threshold (n : Nat) :
    optGt (some ((n : ℚ) * 0.75)) ((CONFIG_maxFileSize : Nat) : ℚ)
      = decide (209715200 < 3 * n) := by
  have h : ((CONFIG_maxFileSize : Nat) : ℚ) < (n : ℚ) * 0.75 ↔ 209715200 < 3 * n := by
    rw [CONFIG_maxFileSize]
    constructor
    · intro h
      have h2 : (209715200 : ℚ) < 3 * (n : ℚ) := by push_cast at h ⊢; linarith
      exact_mod_cast h2
    · intro h
      have h2 : (209715200 : ℚ) < 3 * (n : ℚ) := by exact_mod_cast h
      push_cast at h2 ⊢
      linarith
  simp only [optGt]
  exact decide_eq_decide.mpr h

lemma sizeErrors_of_data (content : JSValue) (s : String)
    (hd : getField (getField content "source") "data" = JSValue.str s) :
    sizeErrors content =
      if 209715200 < 3 * s.length then ["File too large. Maximum size: 50MB"] else [] := by
  rw [sizeErrors, estimatedSizeOf_str content s hd, optGt_threshold]
  by_cases h : 209715200 < 3 * s.length <;> simp [h]

/-- C10: the validator is total on arbitrary inbound bodies (it is a total
function of any `JSValue`, including `undefined`, `null`, non-objects,
missing or non-array `messages`, and content blocks with missing `source`),
and the `valid` flag it returns is true exactly when the returned error list
is empty. -/
theorem validator_valid_iff_no_errors (body : JSValue) :
    (validateRequest body).valid = true ↔ (validateRequest body).errors = [] := by
  unfold validateRequest
  split
  · simp
  · simp [List.isEmpty_iff]

/-- C6: with the credential environment variable absent, the relay responds
500 with the fixed configuration-error message, issues no upstream call, and
does so whatever the request body and however the upstream call would have
settled — in particular no validation outcome is reflected in the response. -/
theorem relay_missing_api_key_500 (body : JSValue) (out : UpstreamOutcome) (rid : String) :
    relayExtract none body out rid =
      { calls := []
        response :=
          { status := 500
            body := errJson
              "API Key is not configured. Please set ANTHROPIC_API_KEY in environment variables."
              rid } } := rfl

/-- C7: for a request that passes validation and an upstream call that
returns a success status with a JSON body, the relay responds 200 with the
upstream JSON body passed through unmodified. -/
theorem relay_success_passthrough (key rid : String) (body v : JSValue) (st : Nat)
    (hv : (validateRequest body).valid = true)
    (hok : responseOk st = true) :
    (relayExtract (some key) body (.response st (.json v)) rid).response
      = { status := 200, body := v } := by
  simp [relayExtract, relayRespond, hv, hok]

theorem relay_success_passthrough_witness :
    (validateRequest sampleBody).valid = true ∧
    responseOk 200 = true ∧
    (relayExtract (some "k") sampleBody
        (.response 200 (.json (.obj [("content", .arr [.obj
          [("type", .str "text"), ("text", .str "x")]])]))) "r1").response
      = { status := 200
          body := .obj [("content", .arr [.obj
            [("type", .str "text"), ("text", .str "x")]])] } := by
  have hv : (validateRequest sampleBody).valid = true := by
    have hd : getField (getField (contentBlock sampleBody) "source") "data"
        = JSValue.str "aGVsbG8=" := rfl
    simp only [validateRequest, contentTypeErrors, sourceTypeErrors, dataErrors,
      mediaTypeErrors, sizeErrors_of_data (contentBlock sampleBody) "aGVsbG8=" hd]
    decide
  exact ⟨hv, rfl, relay_success_passthrough "k" "r1" sampleBody _ 200 hv rfl⟩

lemma sampleBody_valid : (validateRequest sampleBody).valid = true := by
  have hd : getField (getField (contentBlock sampleBody) "source") "data"
      = JSValue.str "aGVsbG8=" := rfl
  simp only [validateRequest, contentTypeErrors, sourceTypeErrors, dataErrors,
    mediaTypeErrors, sizeErrors_of_data (contentBlock sampleBody) "aGVsbG8=" hd]
  decide

/-- C8: every request that reaches the upstream-calling stage issues exactly
one POST to the fixed endpoint, with the Content-Type, credential and
protocol-version headers, whose body is one user message of exactly two
content blocks: the document block rebuilt from the inbound request followed
by the text block carrying the fixed extraction prompt. -/
theorem relay_upstream_call_shape (key rid : String) (body : JSValue)
    (out : UpstreamOutcome)
    (hv : (validateRequest body).valid = true) :
    (relayExtract (some key) body out rid).calls =
      [{ url := "https://api.anthropic.com/v1/messages"
         method := "POST"
         headers :=
           [("Content-Type", "application/json"),
            ("x-api-key", key),
            ("anthropic-version", "2023-06-01")]
         body := .obj
           [("model", .str "claude-sonnet-4-20250514"),
            ("max_tokens", .num 4096),
            ("messages", .arr
              [.obj
                [("role", .str "user"),
                 ("content", .arr
                   [.obj
                     [("type", getField (contentBlock body) "type"),
                      ("source", .obj
                        [("type", .str "base64"),
                         ("media_type",
                           getField (getField (contentBlock body) "source") "media_type"),
                         ("data", getField (getField (contentBlock body) "source") "data")])],
                    .obj [("type", .str "text"),
                          ("text", .str buildExtractionPrompt)]])]])] }] := by
  simp [relayExtract, hv, buildUpstreamRequest, CONFIG_model, CONFIG_maxTokens]

theorem relay_upstream_call_shape_witness :
    (validateRequest sampleBody).valid = true ∧
    (relayExtract (some "secret") sampleBody .aborted "r2").calls =
      [{ url := "https://api.anthropic.com/v1/messages"
         method := "POST"
         headers :=
           [("Content-Type", "application/json"),
            ("x-api-key", "secret"),
            ("anthropic-version", "2023-06-01")]
         body := .obj
           [("model", .str "claude-sonnet-4-20250514"),
            ("max_tokens", .num 4096),
            ("messages", .arr
              [.obj
                [("role", .str "user"),
                 ("content", .arr
                   [.obj
                     [("type", getField (contentBlock sampleBody) "type"),
                      ("source", .obj
                        [("type", .str "base64"),
                         ("media_type",
                           getField (getField (contentBlock sampleBody) "source") "media_type"),
                         ("data", getField (getField (contentBlock sampleBody) "source") "data")])],
                    .obj [("type", .str "text"),
                          ("text", .str buildExtractionPrompt)]])]])] }] :=
  ⟨sampleBody_valid,
   relay_upstream_call_shape "secret" "r2" sampleBody .aborted sampleBody_valid⟩

/-- C1: after successful validation, a non-success upstream status is mapped
as follows — 401 to caller status 500 with the fixed credential-invalid
message, the whole response independent of the upstream error body (the raw
upstream message is never included); 429 to 429 with the rate-limit message;
400 to 400 with the malformed-document message plus the upstream detail; any
other non-success status to 500 with the upstream detail, which falls back to
the string `API Error: <status>` when the upstream error body fails to
parse. -/
theorem relay_maps_upstream_statuses (key rid : String) (body : JSValue)
    (st : Nat) (ub ub2 : UpstreamBody)
    (hv : (validateRequest body).valid = true)
    (hst : responseOk st = false) :
    (st = 401 →
      (relayExtract (some key) body (.response st ub) rid).response.status = 500 ∧
      (relayExtract (some key) body (.response st ub) rid).response.body
        = errJson "Invalid API key. Please check your ANTHROPIC_API_KEY configuration." rid ∧
      (relayExtract (some key) body (.response st ub) rid).response
        = (relayExtract (some key) body (.response st ub2) rid).response) ∧
    (st = 429 →
      (relayExtract (some key) body (.response st ub) rid).response.status = 429 ∧
      (relayExtract (some key) body (.response st ub) rid).response.body
        = errJson "Rate limit exceeded. Please wait a moment and try again." rid) ∧
    (st = 400 →
      (relayExtract (some key) body (.response st ub) rid).response.status = 400 ∧
      (relayExtract (some key) body (.response st ub) rid).response.body
        = .obj
          [("error", .str
            "Invalid document format. Please ensure the file is a valid PDF or image."),
           ("details", upstreamErrorMessage st ub),
           ("requestId", .str rid)]) ∧
    (st ≠ 401 → st ≠ 429 → st ≠ 400 →
      (relayExtract (some key) body (.response st ub) rid).response.status = 500 ∧
      (relayExtract (some key) body (.response st ub) rid).response.body
        = errJson (errMessageOrDefault (jsToString (upstreamErrorMessage st ub))) rid ∧
      ∀ m, ub = .unparsable m →
        upstreamErrorMessage st ub = .str ("API Error: " ++ toString st)) := by
  refine ⟨?_, ?_, ?_, ?_⟩
  · rintro rfl
    refine ⟨?_, ?_, ?_⟩ <;> simp [relayExtract, relayRespond, hv, responseOk]
  · rintro rfl
    refine ⟨?_, ?_⟩ <;> simp [relayExtract, relayRespond, hv, responseOk]
  · rintro rfl
    refine ⟨?_, ?_⟩ <;> simp [relayExtract, relayRespond, hv, responseOk]
  · intro h1 h2 h3
    refine ⟨?_, ?_, ?_⟩
    · simp [relayExtract, relayRespond, hv, hst, h1, h2, h3]
    · simp [relayExtract, relayRespond, hv, hst, h1, h2, h3]
    · rintro m rfl
      simp [upstreamErrorMessage, upstreamErrorData, getField, jsOr, truthy]

theorem relay_maps_upstream_statuses_witness :
    (validateRequest sampleBody).valid = true ∧
    responseOk 503 = false ∧
    ((relayExtract (some "k") sampleBody
        (.response 503 (.unparsable "bad json")) "r3").response.status = 500 ∧
      (relayExtract (some "k") sampleBody
        (.response 503 (.unparsable "bad json")) "r3").response.body
        = errJson "API Error: 503" "r3") := by
  have h := relay_maps_upstream_statuses "k" "r3" sampleBody 503
    (.unparsable "bad json") (.json (.obj [])) sampleBody_valid rfl
  obtain ⟨hs, hb, hmsg⟩ :=
    h.2.2.2 (by decide) (by decide) (by decide)
  refine ⟨sampleBody_valid, rfl, hs, ?_⟩
  rw [hb, hmsg "bad json" rfl]
  rfl

lemma threshold_iff (n : Nat) :
    ((CONFIG_maxFileSize : ℚ) < (n : ℚ) * 0.75) ↔ 209715200 < 3 * n := by
  rw [CONFIG_maxFileSize]
  constructor
  · intro h
    have h2 : (209715200 : ℚ) < 3 * (n : ℚ) := by push_cast at h ⊢; linarith
    exact_mod_cast h2
  · intro h
    have h2 : (209715200 : ℚ) < 3 * (n : ℚ) := by exact_mod_cast h
    push_cast at h2 ⊢
    linarith

/-- C2: after successful validation, cancellation of the upstream call by the
deadline timer makes the relay respond 504 with the timeout message and the
suggestion to retry with a smaller file or a screenshot instead of a PDF; and
504 is reserved for this outcome — a handler run whose upstream call was not
aborted never carries status 504. -/
theorem relay_timeout_504 (key rid : String) (body : JSValue)
    (hv : (validateRequest body).valid = true) :
    ((relayExtract (some key) body .aborted rid).response.status = 504 ∧
      (relayExtract (some key) body .aborted rid).response.body
        = .obj
          [("error", .str "Processing timeout. The document took too long to analyze."),
           ("suggestion", .str
             "Try uploading a screenshot (PNG/JPG) instead of a PDF, or use a smaller file."),
           ("requestId", .str rid)]) ∧
    ∀ (k : Option String) (b : JSValue) (o : UpstreamOutcome) (rid2 : String),
      (relayExtract k b o rid2).response.status = 504 → o = UpstreamOutcome.aborted := by
  constructor
  · rw [relayExtract_of_valid key body .aborted rid hv]
    exact ⟨rfl, rfl⟩
  · intro k b o rid2 h
    cases o with
    | aborted => rfl
    | response st ub =>
        exfalso
        cases k with
        | none => simp [relayExtract] at h
        | some kk =>
            rcases Bool.eq_false_or_eq_true (validateRequest b).valid with hb | hb
            · rw [relayExtract_of_valid kk b _ rid2 hb] at h
              simp only [relayRespond] at h
              by_cases hok : responseOk st = true
              · rw [if_pos hok] at h
                cases ub <;> simp at h
              · rw [if_neg hok] at h
                by_cases h1 : st = 401
                · rw [if_pos h1] at h
                  simp at h
                · rw [if_neg h1] at h
                  by_cases h2 : st = 429
                  · rw [if_pos h2] at h
                    simp at h
                  · rw [if_neg h2] at h
                    by_cases h3 : st = 400
                    · rw [if_pos h3] at h
                      simp at h
                    · rw [if_neg h3] at h
                      simp at h
            · rw [relayExtract_of_invalid kk b _ rid2 hb] at h
              simp at h
    | failed m =>
        exfalso
        cases k with
        | none => simp [relayExtract] at h
        | some kk =>
            rcases Bool.eq_false_or_eq_true (validateRequest b).valid with hb | hb
            · rw [relayExtract_of_valid kk b _ rid2 hb] at h
              simp [relayRespond] at h
            · rw [relayExtract_of_invalid kk b _ rid2 hb] at h
              simp at h

theorem relay_timeout_504_witness :
    (validateRequest sampleBody).valid = true ∧
    ((relayExtract (some "k") sampleBody .aborted "r6").response.status = 504 ∧
      (relayExtract (some "k") sampleBody .aborted "r6").response.body
        = .obj
          [("error", .str "Processing timeout. The document took too long to analyze."),
           ("suggestion", .str
             "Try uploading a screenshot (PNG/JPG) instead of a PDF, or use a smaller file."),
           ("requestId", .str "r6")]) :=
  ⟨sampleBody_valid, (relay_timeout_504 "k" "r6" sampleBody sampleBody_valid).1⟩

/-- C3: a body whose content block is absent (falsy) makes the validator
return at once with the single missing-content error and no later check
evaluated, and (with the credential configured) the relay answer 400 carrying
exactly that error list with no upstream call issued; a body whose content
block is present has all five remaining checks evaluated and every failure
collected, in source order. -/
theorem validator_missing_content_short_circuits :
    (∀ body : JSValue, truthy (contentBlock body) = false →
      validateRequest body = { valid := false, errors := ["Missing document content"] } ∧
      ∀ (key rid : String) (out : UpstreamOutcome),
        (relayExtract (some key) body out rid).calls = [] ∧
        (relayExtract (some key) body out rid).response.status = 400 ∧
        (relayExtract (some key) body out rid).response.body
          = .obj
            [("error", .str "Invalid request"),
             ("details", .arr [.str "Missing document content"]),
             ("requestId", .str rid)]) ∧
    (∀ body : JSValue, truthy (contentBlock body) = true →
      (validateRequest body).errors =
        contentTypeErrors (contentBlock body) ++ sourceTypeErrors (contentBlock body)
          ++ dataErrors (contentBlock body) ++ mediaTypeErrors (contentBlock body)
          ++ sizeErrors (contentBlock body)) := by
  constructor
  · intro body h
    have hval : validateRequest body
        = { valid := false, errors := ["Missing document content"] } := by
      simp [validateRequest, h]
    refine ⟨hval, ?_⟩
    intro key rid out
    have hfalse : (validateRequest body).valid = false := by rw [hval]
    rw [relayExtract_of_invalid key body out rid hfalse]
    refine ⟨rfl, rfl, ?_⟩
    rw [hval]
    rfl
  · intro body h
    simp [validateRequest, h]

theorem validator_missing_content_short_circuits_witness :
    (truthy (contentBlock JSValue.null) = false ∧
      validateRequest JSValue.null
        = { valid := false, errors := ["Missing document content"] } ∧
      (relayExtract (some "k") JSValue.null .aborted "r9").calls = [] ∧
      (relayExtract (some "k") JSValue.null .aborted "r9").response.status = 400) ∧
    (truthy (contentBlock multiFailBody) = true ∧
      (validateRequest multiFailBody).errors =
        contentTypeErrors (contentBlock multiFailBody)
          ++ sourceTypeErrors (contentBlock multiFailBody)
          ++ dataErrors (contentBlock multiFailBody)
          ++ mediaTypeErrors (contentBlock multiFailBody)
          ++ sizeErrors (contentBlock multiFailBody)) := by
  constructor
  · have h := validator_missing_content_short_circuits.1 JSValue.null rfl
    exact ⟨rfl, h.1, (h.2 "k" "r9" .aborted).1, (h.2 "k" "r9" .aborted).2.1⟩
  · exact ⟨rfl, validator_missing_content_short_circuits.2 multiFailBody rfl⟩

/-- C4: for a request with a content block whose base64 `data` is a string,
the validator estimates the decoded size as 0.75 × the string's length and
reports the size-exceeded error exactly when that estimate strictly exceeds
`CONFIG.maxFileSize` = 52428800 bytes; an estimate at or below the maximum
(in particular one equal to it) passes the size check. -/
theorem validator_size_check_threshold (body : JSValue) (s : String)
    (hc : truthy (contentBlock body) = true)
    (hd : getField (getField (contentBlock body) "source") "data" = JSValue.str s) :
    CONFIG_maxFileSize = 52428800 ∧
    estimatedSizeOf (contentBlock body) = some ((s.length : ℚ) * 0.75) ∧
    ("File too large. Maximum size: 50MB" ∈ (validateRequest body).errors ↔
      (52428800 : ℚ) < (s.length : ℚ) * 0.75) ∧
    ((s.length : ℚ) * 0.75 ≤ 52428800 →
      "File too large. Maximum size: 50MB" ∉ (validateRequest body).errors) := by
  have hcast : ((CONFIG_maxFileSize : ℚ)) = 52428800 := by
    rw [CONFIG_maxFileSize]; norm_num
  have hiff : ((52428800 : ℚ) < (s.length : ℚ) * 0.75) ↔ 209715200 < 3 * s.length := by
    rw [← hcast]; exact threshold_iff s.length
  have h1 : "File too large. Maximum size: 50MB" ∉ contentTypeErrors (contentBlock body) := by
    unfold contentTypeErrors; split <;> simp
  have h2 : "File too large. Maximum size: 50MB" ∉ sourceTypeErrors (contentBlock body) := by
    unfold sourceTypeErrors; split <;> simp
  have h3 : "File too large. Maximum size: 50MB" ∉ dataErrors (contentBlock body) := by
    unfold dataErrors; split <;> simp
  have h4 : "File too large. Maximum size: 50MB" ∉ mediaTypeErrors (contentBlock body) := by
    unfold mediaTypeErrors; split <;> decide
  have herrs : (validateRequest body).errors =
      contentTypeErrors (contentBlock body) ++ sourceTypeErrors (contentBlock body)
        ++ dataErrors (contentBlock body) ++ mediaTypeErrors (contentBlock body)
        ++ (if 209715200 < 3 * s.length then ["File too large. Maximum size: 50MB"] else []) := by
    simp [validateRequest, hc, sizeErrors_of_data (contentBlock body) s hd]
  have hmem : ("File too large. Maximum size: 50MB" ∈ (validateRequest body).errors ↔
      209715200 < 3 * s.length) := by
    rw [herrs]
    by_cases hcond : 209715200 < 3 * s.length
    · simp [List.mem_append, h1, h2, h3, h4, hcond]
    · simp [List.mem_append, h1, h2, h3, h4, hcond]
  refine ⟨rfl, estimatedSizeOf_str (contentBlock body) s hd, ?_, ?_⟩
  · rw [hmem]
    exact hiff.symm
  · intro hle hm
    exact absurd (hiff.mpr (hmem.mp hm)) (not_lt.mpr hle)

theorem validator_size_check_threshold_witness :
    truthy (contentBlock sampleBody) = true ∧
    getField (getField (contentBlock sampleBody) "source") "data"
      = JSValue.str "aGVsbG8=" ∧
    (CONFIG_maxFileSize = 52428800 ∧
      estimatedSizeOf (contentBlock sampleBody)
        = some ((("aGVsbG8=".length : Nat) : ℚ) * 0.75) ∧
      ("File too large. Maximum size: 50MB" ∈ (validateRequest sampleBody).errors ↔
        (52428800 : ℚ) < (("aGVsbG8=".length : Nat) : ℚ) * 0.75) ∧
      ((("aGVsbG8=".length : Nat) : ℚ) * 0.75 ≤ 52428800 →
        "File too large. Maximum size: 50MB" ∉ (validateRequest sampleBody).errors)) :=
  ⟨rfl, rfl, validator_size_check_threshold sampleBody "aGVsbG8=" rfl rfl⟩

lemma zipBody_errors : (validateRequest zipBody).errors = [mediaTypeErrorMsg] := by
  have hd : getField (getField (contentBlock zipBody) "source") "data"
      = JSValue.str "aGVsbG8=" := rfl
  simp only [validateRequest, contentTypeErrors, sourceTypeErrors, dataErrors,
    mediaTypeErrors, sizeErrors_of_data (contentBlock zipBody) "aGVsbG8=" hd]
  decide

lemma zipBody_invalid : (validateRequest zipBody).valid = false := by
  rw [validateRequest_valid_eq, zipBody_errors]
  rfl

/-- C5 as stated fails on the code: with `media_type: "application/zip"` the
relay does respond 400, but the error list does not name the invalid media
type — no entry of the list mentions the substring `application/zip`; the
single media-type error lists only the allowed set. -/
theorem media_type_offender_not_named :
    (validateRequest zipBody).valid = false ∧
    (validateRequest zipBody).errors = [mediaTypeErrorMsg] ∧
    (relayExtract (some "k") zipBody (.response 200 (.json (.obj []))) "r7").response.status
      = 400 ∧
    (validateRequest zipBody).errors.all (fun e => !(mentions "application/zip" e))
      = true := by
  refine ⟨zipBody_invalid, zipBody_errors, ?_, ?_⟩
  · rw [relayExtract_of_invalid "k" zipBody _ "r7" zipBody_invalid]
  · rw [zipBody_errors]
    decide

/-- C5 amended: for every request with a content block whose `media_type` is
outside the allow-list, validation fails with the error message listing the
allowed set verbatim (the message flags the invalid media type but does not
echo its value), and the relay responds 400 whose `details` is the error
list, issuing no upstream call. -/
theorem validator_media_type_allowlist (key rid : String) (body : JSValue)
    (out : UpstreamOutcome)
    (hc : truthy (contentBlock body) = true)
    (hm : strIncludes validMediaTypes
        (getField (getField (contentBlock body) "source") "media_type") = false) :
    mediaTypeErrorMsg ∈ (validateRequest body).errors ∧
    mediaTypeErrorMsg =
      "Invalid media type. Allowed: application/pdf, image/jpeg, image/jpg, image/png, image/gif, image/webp" ∧
    (validateRequest body).valid = false ∧
    (relayExtract (some key) body out rid).calls = [] ∧
    (relayExtract (some key) body out rid).response.status = 400 ∧
    (relayExtract (some key) body out rid).response.body
      = .obj
        [("error", .str "Invalid request"),
         ("details", .arr ((validateRequest body).errors.map JSValue.str)),
         ("requestId", .str rid)] := by
  have h4 : mediaTypeErrors (contentBlock body) = [mediaTypeErrorMsg] := by
    simp [mediaTypeErrors, hm]
  have herrs : (validateRequest body).errors =
      contentTypeErrors (contentBlock body) ++ sourceTypeErrors (contentBlock body)
        ++ dataErrors (contentBlock body) ++ [mediaTypeErrorMsg]
        ++ sizeErrors (contentBlock body) := by
    simp [validateRequest, hc, h4]
  have hmem : mediaTypeErrorMsg ∈ (validateRequest body).errors := by
    rw [herrs]
    simp
  have hinv : (validateRequest body).valid = false := by
    rw [validateRequest_valid_eq]
    cases he : (validateRequest body).errors with
    | nil => exact absurd (he ▸ hmem) (List.not_mem_nil _)
    | cons a l => rfl
  rw [relayExtract_of_invalid key body out rid hinv]
  exact ⟨hmem, rfl, hinv, rfl, rfl, rfl⟩

theorem validator_media_type_allowlist_witness :
    truthy (contentBlock zipBody) = true ∧
    strIncludes validMediaTypes
      (getField (getField (contentBlock zipBody) "source") "media_type") = false ∧
    (mediaTypeErrorMsg ∈ (validateRequest zipBody).errors ∧
      (validateRequest zipBody).valid = false ∧
      (relayExtract (some "k2") zipBody .aborted "r8").response.status = 400) := by
  have h := validator_media_type_allowlist "k2" "r8" zipBody .aborted rfl rfl
  exact ⟨rfl, rfl, h.1, h.2.2.1, h.2.2.2.2.1⟩

/-- C9: with the credential, the request body and the upstream settlement
fixed, two handler runs that differ only in their correlation identifier
produce the same status code and bodies that are identical once the
top-level `requestId` field is removed. -/
theorem relay_deterministic_mod_request_id (key : Option String) (body : JSValue)
    (out : UpstreamOutcome) (rid rid2 : String) :
    (relayExtract key body out rid).response.status
      = (relayExtract key body out rid2).response.status ∧
    stripRequestId (relayExtract key body out rid).response.body
      = stripRequestId (relayExtract key body out rid2).response.body := by
  cases key with
  | none => exact ⟨rfl, rfl⟩
  | some k =>
    rcases Bool.eq_false_or_eq_true (validateRequest body).valid with hb | hb
    · rw [relayExtract_of_valid k body out rid hb,
        relayExtract_of_valid k body out rid2 hb]
      cases out with
      | aborted => exact ⟨rfl, rfl⟩
      | failed m => exact ⟨rfl, rfl⟩
      | response st ub =>
          simp only [relayRespond]
          by_cases hok : responseOk st = true
          · rw [if_pos hok, if_pos hok]
            cases ub with
            | json v => exact ⟨rfl, rfl⟩
            | unparsable m => exact ⟨rfl, rfl⟩
          · rw [if_neg hok, if_neg hok]
            by_cases h1 : st = 401
            · rw [if_pos h1, if_pos h1]
              exact ⟨rfl, rfl⟩
            · rw [if_neg h1, if_neg h1]
              by_cases h2 : st = 429
              · rw [if_pos h2, if_pos h2]
                exact ⟨rfl, rfl⟩
              · rw [if_neg h2, if_neg h2]
                by_cases h3 : st = 400
                · rw [if_pos h3, if_pos h3]
                  exact ⟨rfl, rfl⟩
                · rw [if_neg h3, if_neg h3]
                  exact ⟨rfl, rfl⟩
    · rw [relayExtract_of_invalid k body out rid hb,
        relayExtract_of_invalid k body out rid2 hb]
      exact ⟨rfl, rfl⟩

end SLH
